import Mathlib

/-!
Shallow embedding of the messaging backend (app/models/cassandra_models.py,
app/controllers/conversation_controller.py, app/controllers/message_controller.py,
scripts/setup_db.py) over list-modelled Cassandra tables.

Modelling conventions:
- `uuid.UUID` values and `datetime` timestamps are modelled as `Nat`; a fresh
  uuid4 produced inside a function becomes an explicit `newId` argument, and
  `datetime.utcnow()` becomes an explicit `now` argument.
- A Cassandra table is a `List` of row structures.  A CQL `INSERT` is an
  upsert keyed by the PRIMARY KEY declared in scripts/setup_db.py:
  `conversations_by_user` has PRIMARY KEY (user_id, last_message_ts) and
  `messages` has PRIMARY KEY (conversation_id, timestamp), with no further
  tie-break column.
- A `SELECT ... WHERE pk = x AND ck < b ORDER BY ck DESC LIMIT n` becomes
  filter, sort descending by the clustering column, take n.
- A `SELECT ... WHERE user_id IN (a, b) LIMIT 1` is modelled as reading the
  partition of `a` first and then the partition of `b`, each in clustering
  order, and taking the head; this matches the driver returning the queried
  partitions in the order they are listed.
- Python keyword-argument binding at a call site is modelled by `bindOk`
  over the lists of declared and provided parameter names; a failed binding
  is the `TypeError` Python raises before the callee body runs.
- Pydantic model construction is modelled by `pydanticInit`: unexpected
  keyword fields are ignored, but every required field must be provided.
- A raise inside a controller `try` block is caught by its
  `except Exception` clause and rewrapped as an HTTP 500 error, which is how
  FastAPI `HTTPException(404)` raised inside the try block is surfaced.
-/

namespace Messenger

/-- Row of the `conversations_by_user` table (scripts/setup_db.py lines 65-73). -/
structure ConvRow where
  user_id : Nat
  last_message_ts : Nat
  conversation_id : Nat
  peer_id : Nat
deriving DecidableEq

/-- Row of the messages table written by `MessageModel.create_message`
(columns message_id, conversation_id, sender_id, content, timestamp). -/
structure MsgRow where
  message_id : Nat
  conversation_id : Nat
  sender_id : Nat
  content : String
  timestamp : Nat
deriving DecidableEq

/-- Whole storage state: the two tables of scripts/setup_db.py. -/
structure St where
  conversations : List ConvRow
  messages : List MsgRow
deriving DecidableEq

/-- Descending order on conversation rows by `last_message_ts` (the CLUSTERING
ORDER BY last_message_ts DESC of the table). -/
def convGE (a b : ConvRow) : Prop := b.last_message_ts ≤ a.last_message_ts

/-- Descending order on message rows by `timestamp`. -/
def msgGE (a b : MsgRow) : Prop := b.timestamp ≤ a.timestamp

/-- Strict descending order on message rows by `timestamp`. -/
def msgGT (a b : MsgRow) : Prop := b.timestamp < a.timestamp

/-- Distinctness of message timestamps. -/
def msgNE (a b : MsgRow) : Prop := a.timestamp ≠ b.timestamp

instance : DecidableRel convGE := fun _ _ => Nat.decLe _ _

instance : DecidableRel msgGE := fun _ _ => Nat.decLe _ _

instance : DecidableRel msgGT := fun _ _ => Nat.decLt _ _

instance : DecidableRel msgNE := fun a b =>
  if h : a.timestamp = b.timestamp then .isFalse (fun hn => hn h) else .isTrue h

instance : IsTotal ConvRow convGE := ⟨fun a b => le_total b.last_message_ts a.last_message_ts⟩

instance : IsTrans ConvRow convGE := ⟨fun _ _ _ h1 h2 => le_trans h2 h1⟩

instance : IsTotal MsgRow msgGE := ⟨fun a b => le_total b.timestamp a.timestamp⟩

instance : IsTrans MsgRow msgGE := ⟨fun _ _ _ h1 h2 => le_trans h2 h1⟩

instance : IsAntisymm MsgRow msgGT := ⟨fun _ _ h1 h2 => absurd (lt_trans h1 h2) (lt_irrefl _)⟩

/-- Rows of a partition in clustering order: descending by `last_message_ts`. -/
def sortConvsDesc (l : List ConvRow) : List ConvRow := l.insertionSort convGE

/-- Rows of a message partition in clustering order: descending by `timestamp`. -/
def sortMsgsDesc (l : List MsgRow) : List MsgRow := l.insertionSort msgGE

/-- CQL INSERT into `conversations_by_user`: an upsert keyed by the PRIMARY KEY
(user_id, last_message_ts). -/
def upsertConv (tbl : List ConvRow) (c : ConvRow) : List ConvRow :=
  if tbl.any (fun r => r.user_id == c.user_id && r.last_message_ts == c.last_message_ts) then
    tbl.map (fun r =>
      if r.user_id == c.user_id && r.last_message_ts == c.last_message_ts then c else r)
  else
    tbl ++ [c]

/-- CQL INSERT into the messages table: an upsert keyed by the PRIMARY KEY
(conversation_id, timestamp) declared in scripts/setup_db.py, which has no
further tie-break component. -/
def upsertMsg (tbl : List MsgRow) (m : MsgRow) : List MsgRow :=
  if tbl.any (fun r => r.conversation_id == m.conversation_id && r.timestamp == m.timestamp) then
    tbl.map (fun r =>
      if r.conversation_id == m.conversation_id && r.timestamp == m.timestamp then m else r)
  else
    tbl ++ [m]

/-- Errors surfaced by the storage layer or by the Python runtime. -/
inductive DbError where
  /-- Cassandra InvalidRequest: the statement is rejected by the schema. -/
  | invalidRequest : DbError
  /-- Python TypeError: keyword arguments do not bind to the declared parameters. -/
  | typeError : DbError
deriving DecidableEq

/-- Python keyword-argument binding: every provided name must be a declared
parameter and every parameter without a default must be provided. -/
def bindOk (params required provided : List String) : Bool :=
  provided.all (fun k => params.contains k) && required.all (fun k => provided.contains k)

/-- Calling a Python function with keyword arguments: when the binding fails,
Python raises TypeError before the callee body runs. -/
def callKwargs (params required provided : List String) (run : α) : Except DbError α :=
  if bindOk params required provided then .ok run else .error .typeError

/-- Pydantic model construction: unexpected keyword fields are ignored, but
every required field must be provided, else a ValidationError is raised. -/
def pydanticInit (required provided : List String) : Bool :=
  required.all (fun k => provided.contains k)

/-- Validity of a CQL UPDATE against a table schema: no PRIMARY KEY column may
appear in the SET clause, and the WHERE clause must name every PRIMARY KEY
column. -/
def cqlUpdateValid (primaryKey setCols whereCols : List String) : Bool :=
  setCols.all (fun c => !(primaryKey.contains c)) &&
  primaryKey.all (fun c => whereCols.contains c)

/-- PRIMARY KEY columns of `conversations_by_user` (scripts/setup_db.py line 71). -/
def conversationsByUserKey : List String := ["user_id", "last_message_ts"]

namespace ConversationModel

/-- ConversationModel.get_user_conversations (app/models/cassandra_models.py
lines 11-40): SELECT conversation_id, peer_id, last_message_ts FROM
conversations_by_user WHERE user_id = uid AND last_message_ts < (before_ts or
utcnow) ORDER BY last_message_ts DESC LIMIT limit. -/
def get_user_conversations (db : List ConvRow) (user_id limit : Nat)
    (before_ts : Option Nat) (now : Nat) : List ConvRow :=
  (sortConvsDesc (db.filter (fun r =>
    r.user_id == user_id && decide (r.last_message_ts < before_ts.getD now)))).take limit

/-- ConversationModel.get_conversation (lines 42-62): SELECT conversation_id,
peer_id FROM conversations_by_user WHERE conversation_id = cid; returns the
first row as a pair, or none for the empty dict.  The table is keyed by
user_id, so real Cassandra would reject this filter without ALLOW FILTERING;
the embedding grants the read its intended logical result. -/
def get_conversation (db : List ConvRow) (conversation_id : Nat) : Option (Nat × Nat) :=
  match db.filter (fun r => r.conversation_id == conversation_id) with
  | [] => none
  | r :: _ => some (r.conversation_id, r.peer_id)

/-- ConversationModel.create_or_get_conversation (lines 64-106).  The probe is
SELECT conversation_id FROM conversations_by_user WHERE user_id IN
(user_a, user_b) LIMIT 1 - note that it has no peer_id filter.  On a hit the
matched conversation_id is returned with no write; otherwise a fresh id is
inserted for both users at the current time. -/
def create_or_get_conversation (db : List ConvRow) (user_a user_b newId now : Nat) :
    Nat × List ConvRow :=
  let probed := sortConvsDesc (db.filter (fun r => r.user_id == user_a)) ++
                sortConvsDesc (db.filter (fun r => r.user_id == user_b))
  match probed.head? with
  | some row => (row.conversation_id, db)
  | none =>
    let db1 := upsertConv db ⟨user_a, now, newId, user_b⟩
    let db2 := upsertConv db1 ⟨user_b, now, newId, user_a⟩
    (newId, db2)

end ConversationModel

/-- The UPDATE issued by MessageModel.create_message (lines 145-149):
UPDATE conversations_by_user SET last_message_ts = ts WHERE conversation_id =
cid.  The SET column is part of the PRIMARY KEY and the WHERE clause names
none of the key columns, so the schema check rejects the statement and no row
is modified. -/
def updateConversationsLastTs (tbl : List ConvRow) (ts conversation_id : Nat) :
    Except DbError (List ConvRow) :=
  if cqlUpdateValid conversationsByUserKey ["last_message_ts"] ["conversation_id"] then
    .ok (tbl.map (fun r =>
      if r.conversation_id == conversation_id then { r with last_message_ts := ts } else r))
  else
    .error .invalidRequest

namespace MessageModel

/-- Parameter names declared by MessageModel.create_message (lines 113-119). -/
def create_message_params : List String :=
  ["sender_id", "conversation_id", "content", "timestamp"]

/-- Parameters of create_message without a default value. -/
def create_message_required : List String :=
  ["sender_id", "conversation_id", "content"]

/-- MessageModel.create_message (lines 113-151): insert the message row, then
run the UPDATE on conversations_by_user.  The update statement is invalid for
the schema, so the Python call raises after the message insert; the returned
state keeps the inserted message row and the untouched conversations table. -/
def create_message (st : St) (sender_id conversation_id : Nat) (content : String)
    (timestamp : Option Nat) (newMsgId now : Nat) : Except DbError Nat × St :=
  let ts := timestamp.getD now
  let messages2 := upsertMsg st.messages ⟨newMsgId, conversation_id, sender_id, content, ts⟩
  match updateConversationsLastTs st.conversations ts conversation_id with
  | .ok convs2 => (.ok newMsgId, ⟨convs2, messages2⟩)
  | .error e => (.error e, ⟨st.conversations, messages2⟩)

/-- Parameter names declared by MessageModel.get_conversation_messages
(lines 153-158). -/
def get_conversation_messages_params : List String :=
  ["conversation_id", "limit", "before_ts"]

/-- Parameters of get_conversation_messages without a default value. -/
def get_conversation_messages_required : List String := ["conversation_id"]

/-- MessageModel.get_conversation_messages (lines 153-189): SELECT message_id,
sender_id, content, timestamp FROM messages WHERE conversation_id = cid AND
timestamp < (before_ts or utcnow) ORDER BY timestamp DESC LIMIT limit. -/
def get_conversation_messages (msgs : List MsgRow) (conversation_id limit : Nat)
    (before_ts : Option Nat) (now : Nat) : List MsgRow :=
  (sortMsgsDesc (msgs.filter (fun r =>
    r.conversation_id == conversation_id &&
    decide (r.timestamp < before_ts.getD now)))).take limit

/-- MessageModel.get_messages_before_timestamp (lines 191-210): a direct
delegation to get_conversation_messages with the arguments reordered. -/
def get_messages_before_timestamp (msgs : List MsgRow) (conversation_id : Nat)
    (before_timestamp : Nat) (limit : Nat) (now : Nat) : List MsgRow :=
  get_conversation_messages msgs conversation_id limit (some before_timestamp) now

end MessageModel

/-- HTTP error carried by a FastAPI HTTPException. -/
structure HttpError where
  status : Nat
  detail : String
deriving DecidableEq

/-- Schema ConversationResponse (app/schemas/conversation.py lines 6-10);
conversation_id, peer_id and last_message_ts are required fields. -/
structure ConversationResponse where
  conversation_id : Nat
  peer_id : Nat
  last_message_ts : Nat
  last_message_content : Option String
deriving DecidableEq

/-- Required field names of ConversationResponse. -/
def conversationResponseRequired : List String :=
  ["conversation_id", "peer_id", "last_message_ts"]

/-- Schema PaginatedConversationResponse (app/schemas/conversation.py lines
19-23); the list field is named `data` and all four fields are required. -/
structure PaginatedConversationResponse where
  total : Nat
  page : Nat
  limit : Nat
  data : List ConvRow
deriving DecidableEq

/-- Required field names of PaginatedConversationResponse. -/
def paginatedConversationResponseRequired : List String :=
  ["total", "page", "limit", "data"]

/-- Schema MessageCreate, reconstructed from its use in
MessageController.send_message (the module app/schemas/message.py is not part
of the provided sources; only these three attributes are read). -/
structure MessageCreate where
  sender_id : Nat
  receiver_id : Nat
  content : String
deriving DecidableEq

/-- Schema MessageResponse, reconstructed from the construction site in
MessageController.send_message. -/
structure MessageResponse where
  message_id : Nat
  sender_id : Nat
  receiver_id : Nat
  content : String
  timestamp : Nat
deriving DecidableEq

/-- Schema PaginatedMessageResponse, reconstructed from the construction site
in MessageController.get_conversation_messages. -/
structure PaginatedMessageResponse where
  messages : List MsgRow
  page : Nat
  limit : Nat
  total : Nat
deriving DecidableEq

namespace ConversationController

/-- ConversationController.get_user_conversations (lines 12-57).  Inside the
try block: fetch with before_ts = utcnow; an empty result raises
HTTPException(404), which the catch-all except clause rewraps as a 500; a
non-empty result builds PaginatedConversationResponse with a keyword field
named `conversations`, but the schema requires a field named `data`, so
pydantic raises a ValidationError, likewise rewrapped as a 500. -/
def get_user_conversations (db : List ConvRow) (user_id page limit now : Nat) :
    Except HttpError PaginatedConversationResponse :=
  let conversations := ConversationModel.get_user_conversations db user_id limit (some now) now
  if conversations = [] then
    .error ⟨500, "An error occurred while retrieving conversations: 404: No conversations found for this user"⟩
  else if pydanticInit paginatedConversationResponseRequired
      ["conversations", "page", "limit", "total"] then
    .ok ⟨conversations.length, page, limit, conversations⟩
  else
    .error ⟨500, "An error occurred while retrieving conversations: ValidationError: field data is required"⟩

/-- ConversationController.get_conversation (lines 59-94).  A missing
conversation raises HTTPException(404) inside the try block, which the
catch-all rewraps as a 500.  A found conversation builds ConversationResponse
from conversation_id and peer_id only, omitting the required field
last_message_ts, so pydantic raises a ValidationError, likewise rewrapped as
a 500. -/
def get_conversation (db : List ConvRow) (conversation_id : Nat) :
    Except HttpError ConversationResponse :=
  match ConversationModel.get_conversation db conversation_id with
  | none =>
    .error ⟨500, "An error occurred while retrieving the conversation: 404: Conversation not found"⟩
  | some cp =>
    if pydanticInit conversationResponseRequired ["conversation_id", "peer_id"] then
      .ok ⟨cp.1, cp.2, 0, none⟩
    else
      .error ⟨500, "An error occurred while retrieving the conversation: ValidationError: field last_message_ts is required"⟩

end ConversationController

namespace MessageController

/-- Keyword names passed by MessageController.send_message (lines 28-33) to
MessageModel.create_message. -/
def send_message_kwargs : List String :=
  ["sender_id", "receiver_id", "content", "timestamp"]

/-- MessageController.send_message (lines 13-56).  The call to
MessageModel.create_message passes receiver_id, which create_message does not
declare, and omits conversation_id, so the keyword binding raises TypeError
before the model body runs; the catch-all rewraps it as a 500 and no row is
written.  The first branch of the match is unreachable: were the binding ever
to succeed, the code would next call MessageModel.get_message_by_id, a
function that does not exist on MessageModel. -/
def send_message (st : St) (data : MessageCreate) (newMsgId now : Nat) :
    Except HttpError MessageResponse × St :=
  match callKwargs MessageModel.create_message_params MessageModel.create_message_required
      send_message_kwargs
      (MessageModel.create_message st data.sender_id 0 data.content (some now) newMsgId now) with
  | .ok res =>
    (.error ⟨500, "An error occurred while sending the message: AttributeError: MessageModel has no attribute get_message_by_id"⟩,
     res.2)
  | .error _ =>
    (.error ⟨500, "An error occurred while sending the message: TypeError: create_message got an unexpected keyword argument receiver_id"⟩,
     st)

/-- Keyword names passed by MessageController.get_conversation_messages
(lines 80-84) to MessageModel.get_conversation_messages. -/
def get_conversation_messages_kwargs : List String :=
  ["conversation_id", "page", "limit"]

/-- MessageController.get_conversation_messages (lines 58-104).  The model is
called with a keyword argument named page, which
MessageModel.get_conversation_messages does not declare, so the binding
raises TypeError and the catch-all rewraps it as a 500; the empty-result 404
branch below it is unreachable. -/
def get_conversation_messages (msgs : List MsgRow) (conversation_id page limit now : Nat) :
    Except HttpError PaginatedMessageResponse :=
  match callKwargs MessageModel.get_conversation_messages_params
      MessageModel.get_conversation_messages_required
      get_conversation_messages_kwargs
      (MessageModel.get_conversation_messages msgs conversation_id limit none now) with
  | .ok found =>
    if found = [] then
      .error ⟨500, "An error occurred while retrieving messages: 404: No messages found for this conversation"⟩
    else
      .ok ⟨found, page, limit, found.length⟩
  | .error _ =>
    .error ⟨500, "An error occurred while retrieving messages: TypeError: get_conversation_messages got an unexpected keyword argument page"⟩

end MessageController

/-- Minimum timestamp among the rows of a returned page; this is the value a
paginating client chains into the next call as the exclusive cursor. -/
def pageMinTs : List MsgRow → Nat
  | [] => 0
  | [m] => m.timestamp
  | m :: ms => min m.timestamp (pageMinTs ms)

/-- The client-side chaining loop of the pagination property: call
MessageModel.get_conversation_messages with the current exclusive cursor,
stop on an empty page, otherwise keep the page and continue from its minimum
timestamp.  The first cursor is the scan start time (an absent before_ts is
the same scan with before_ts = utcnow).  The fuel argument bounds the number
of pages and only needs to reach the number of stored messages. -/
def chainPages (msgs : List MsgRow) (conversation_id limit : Nat) :
    Nat → Nat → List (List MsgRow)
  | 0, _ => []
  | fuel + 1, cursor =>
    let p := MessageModel.get_conversation_messages msgs conversation_id limit (some cursor) cursor
    if p = [] then [] else p :: chainPages msgs conversation_id limit fuel (pageMinTs p)

/-- Length of the last page of a page list (0 when there is none). -/
def lastPageLen : List (List MsgRow) → Nat
  | [] => 0
  | [p] => p.length
  | _ :: ps => lastPageLen ps

/-- Membership predicate for the message partition of one conversation. -/
def inConv (conversation_id : Nat) : MsgRow → Bool :=
  fun r => r.conversation_id == conversation_id

/-- Strict cursor predicate on message rows. -/
def beforeTs (b : Nat) : MsgRow → Bool :=
  fun r => decide (r.timestamp < b)

/-- Conversations table where user 1 already talks to user 3 (conversation
100) and user 2 already talks to user 4 (conversation 200). -/
def dbTwoOtherPeers : List ConvRow := [⟨1, 10, 100, 3⟩, ⟨2, 20, 200, 4⟩]

/-- Conversations table where user 1 talks only to user 3 (conversation 100)
and user 2 has no conversation at all. -/
def dbOneOtherPeer : List ConvRow := [⟨1, 10, 100, 3⟩]

/-- State holding the two membership rows of conversation 9 between users 1
and 2, both at last_message_ts 5, and no messages. -/
def stMembership : St := ⟨[⟨1, 5, 9, 2⟩, ⟨2, 5, 9, 1⟩], []⟩

/-- State after appending two different messages to conversation 1 with the
same timestamp 5: message 11 from sender 7, then message 12 from sender 8. -/
def stSameTs : St :=
  (MessageModel.create_message
    (MessageModel.create_message ⟨[], []⟩ 7 1 "first" (some 5) 11 5).2
    8 1 "second" (some 5) 12 5).2

/-- Four messages of conversation 1 with timestamps 1, 2, 3, 4. -/
def msgsFour : List MsgRow :=
  [⟨1, 1, 1, "a", 1⟩, ⟨2, 1, 1, "b", 2⟩, ⟨3, 1, 1, "c", 3⟩, ⟨4, 1, 1, "d", 4⟩]

/-- Three messages of conversation 1 with timestamps 1, 2, 3. -/
def msgsThree : List MsgRow :=
  [⟨1, 1, 1, "a", 1⟩, ⟨2, 1, 1, "b", 2⟩, ⟨3, 1, 1, "c", 3⟩]

/-- C9: MessageModel.get_messages_before_timestamp returns exactly the result
of MessageModel.get_conversation_messages with the arguments reordered; the
two scan entry points are equivalent, as the source body is a pure
delegation. -/
theorem get_messages_before_timestamp_delegates (msgs : List MsgRow)
    (conversation_id before_timestamp limit now : Nat) :
    MessageModel.get_messages_before_timestamp msgs conversation_id before_timestamp limit now =
      MessageModel.get_conversation_messages msgs conversation_id limit
        (some before_timestamp) now := rfl

/-- C10: MessageController.send_message fails with an HTTP 500 error on every
input and never writes a message row: the keyword binding of the
create_message call fails (receiver_id is not declared, conversation_id is
missing), so the TypeError is raised before any insert and the catch-all
turns it into an internal-server-error response, returning the state
unchanged. -/
theorem send_message_always_internal_error (st : St) (data : MessageCreate)
    (newMsgId now : Nat) :
    MessageController.send_message st data newMsgId now =
      (.error ⟨500, "An error occurred while sending the message: TypeError: create_message got an unexpected keyword argument receiver_id"⟩,
       st) := rfl

/-- C1 (code side): the resolver is not symmetric.  On a table where user 1
already talks to user 3 (conversation 100) and user 2 talks to user 4
(conversation 200), resolving (1,2) returns 100 while resolving (2,1)
returns 200, because the probe has no peer_id filter and reads the
partitions in the order they appear in the IN clause. -/
theorem resolver_not_symmetric_eval :
    (ConversationModel.create_or_get_conversation dbTwoOtherPeers 1 2 999 50).1 = 100 ∧
    (ConversationModel.create_or_get_conversation dbTwoOtherPeers 2 1 999 50).1 = 200 ∧
    (100 : Nat) ≠ 200 := by decide

/-- C7 (code side): the existence probe matches a membership row of user 1
whose peer is user 3, even though no conversation between users 1 and 2
exists, and returns that foreign conversation id 100 with no write.  The
claimed probe would match only rows with peer_id = 2 and hence create a new
conversation here. -/
theorem probe_matches_wrong_peer_eval :
    ConversationModel.create_or_get_conversation dbOneOtherPeer 1 2 999 50 =
      (100, dbOneOtherPeer) ∧
    dbOneOtherPeer.filter (fun r => r.user_id == 1 && r.peer_id == 2) = [] := by decide

/-- C4 (code side): appending a message at timestamp 10 to conversation 9
leaves both membership rows at their old last_message_ts 5.  The UPDATE on
conversations_by_user names only conversation_id in its WHERE clause and
tries to SET the clustering column last_message_ts, so the schema rejects the
statement and the model call errors after inserting the message row. -/
theorem create_message_updates_no_membership :
    (MessageModel.create_message stMembership 1 9 "hi" (some 10) 42 10).1 =
      .error .invalidRequest ∧
    (MessageModel.create_message stMembership 1 9 "hi" (some 10) 42 10).2.conversations =
      stMembership.conversations ∧
    (∀ r ∈ (MessageModel.create_message stMembership 1 9 "hi" (some 10) 42 10).2.conversations,
      r.last_message_ts = 5) := ⟨rfl, rfl, by decide⟩

/-- C6 (code side): appending two messages with the same timestamp to the
same conversation keeps only the second one, because the messages table is
keyed by (conversation_id, timestamp) with no per-message tie-break, so the
second INSERT overwrites the first; scanning with limit 2 then returns a
single message instead of the two appended ones. -/
theorem equal_timestamp_append_overwrites :
    stSameTs.messages = [⟨12, 1, 8, "second", 5⟩] ∧
    MessageModel.get_conversation_messages stSameTs.messages 1 2 none 10 =
      [⟨12, 1, 8, "second", 5⟩] ∧
    (MessageModel.get_conversation_messages stSameTs.messages 1 2 none 10).length = 1 := by
  decide

/-- C5: both scans treat an explicit cursor as an exclusive upper bound: no
returned row carries a timestamp equal to the cursor, every returned row is
strictly below it, at most limit rows are returned, and the page is ordered
descending by its clustering timestamp. -/
theorem scans_exclusive_bound (cdb : List ConvRow) (msgs : List MsgRow)
    (uid cid b L now : Nat) :
    (∀ r ∈ ConversationModel.get_user_conversations cdb uid L (some b) now,
        r.last_message_ts < b ∧ r.last_message_ts ≠ b) ∧
    (ConversationModel.get_user_conversations cdb uid L (some b) now).length ≤ L ∧
    (ConversationModel.get_user_conversations cdb uid L (some b) now).Sorted convGE ∧
    (∀ r ∈ MessageModel.get_conversation_messages msgs cid L (some b) now,
        r.timestamp < b ∧ r.timestamp ≠ b) ∧
    (MessageModel.get_conversation_messages msgs cid L (some b) now).length ≤ L ∧
    (MessageModel.get_conversation_messages msgs cid L (some b) now).Sorted msgGE := by
  refine ⟨?_, ?_, ?_, ?_, ?_, ?_⟩
  · intro r hr
    have h1 := List.take_subset _ _ hr
    simp only [sortConvsDesc, List.mem_insertionSort, List.mem_filter, Bool.and_eq_true,
      beq_iff_eq, decide_eq_true_eq, Option.getD_some] at h1
    exact ⟨h1.2.2, Nat.ne_of_lt h1.2.2⟩
  · rw [ConversationModel.get_user_conversations, List.length_take]
    exact min_le_left _ _
  · exact List.Pairwise.sublist (List.take_sublist _ _) (List.sorted_insertionSort _ _)
  · intro r hr
    have h1 := List.take_subset _ _ hr
    simp only [sortMsgsDesc, List.mem_insertionSort, List.mem_filter, Bool.and_eq_true,
      beq_iff_eq, decide_eq_true_eq, Option.getD_some] at h1
    exact ⟨h1.2.2, Nat.ne_of_lt h1.2.2⟩
  · rw [MessageModel.get_conversation_messages, List.length_take]
    exact min_le_left _ _
  · exact List.Pairwise.sublist (List.take_sublist _ _) (List.sorted_insertionSort _ _)

/-- C3 (counterexample): at the exposed interface an empty result is NOT a
successful page with zero items.  On an empty conversations table the
conversation-list controller answers HTTP 500 (its internal 404 is swallowed
by the catch-all), and the message-list controller answers HTTP 500 for
every request because it passes the undeclared keyword page to the model. -/
theorem empty_scan_errors_eval :
    ConversationController.get_user_conversations [] 1 1 20 10 =
      .error ⟨500, "An error occurred while retrieving conversations: 404: No conversations found for this user"⟩ ∧
    MessageController.get_conversation_messages [] 1 1 20 10 =
      .error ⟨500, "An error occurred while retrieving messages: TypeError: get_conversation_messages got an unexpected keyword argument page"⟩ :=
  ⟨rfl, rfl⟩

/-- C3 (amended): the model layer does return an empty list as a normal value
when no rows qualify, but the exposed controllers report an error on such
inputs: whenever the model scan for a user comes back empty, the
conversation-list controller returns HTTP 500 (the 404 it raises is rewrapped
by the catch-all), and the message-list controller returns HTTP 500 for every
input since its model call raises TypeError. -/
theorem empty_result_error_at_interface (cdb : List ConvRow) (msgs : List MsgRow)
    (uid cid page L now : Nat)
    (hconv : ConversationModel.get_user_conversations cdb uid L (some now) now = []) :
    ConversationController.get_user_conversations cdb uid page L now =
      .error ⟨500, "An error occurred while retrieving conversations: 404: No conversations found for this user"⟩ ∧
    MessageController.get_conversation_messages msgs cid page L now =
      .error ⟨500, "An error occurred while retrieving messages: TypeError: get_conversation_messages got an unexpected keyword argument page"⟩ := by
  constructor
  · rw [ConversationController.get_user_conversations, hconv]
    rfl
  · rfl

/-- C3 (witness): the amended statement instantiated on empty tables. -/
theorem empty_result_error_at_interface_witness :
    ConversationModel.get_user_conversations [] 1 20 (some 10) 10 = [] ∧
    (ConversationController.get_user_conversations [] 1 1 20 10 =
      .error ⟨500, "An error occurred while retrieving conversations: 404: No conversations found for this user"⟩ ∧
    MessageController.get_conversation_messages [] 2 1 20 10 =
      .error ⟨500, "An error occurred while retrieving messages: TypeError: get_conversation_messages got an unexpected keyword argument page"⟩) :=
  ⟨rfl, empty_result_error_at_interface [] [] 1 2 1 20 10 rfl⟩

theorem msgGT_of_sorted_ne {l : List MsgRow} (hs : l.Sorted msgGE)
    (hne : l.Pairwise msgNE) : l.Pairwise msgGT :=
  (List.Pairwise.and hs hne).imp (fun h => lt_of_le_of_ne h.1 (Ne.symm h.2))

theorem sortMsgsDesc_perm (l : List MsgRow) : List.Perm (sortMsgsDesc l) l :=
  List.perm_insertionSort _ _

theorem sortMsgsDesc_sorted (l : List MsgRow) : (sortMsgsDesc l).Sorted msgGE :=
  List.sorted_insertionSort _ _

theorem sortMsgsDesc_strict {l : List MsgRow} (hne : l.Pairwise msgNE) :
    (sortMsgsDesc l).Pairwise msgGT :=
  msgGT_of_sorted_ne (sortMsgsDesc_sorted l)
    (((sortMsgsDesc_perm l).pairwise_iff (fun h => Ne.symm h)).mpr hne)

theorem strict_sorted_unique {l₁ l₂ : List MsgRow} (h₁ : l₁.Pairwise msgGT)
    (h₂ : l₂.Pairwise msgGT) (p : List.Perm l₁ l₂) : l₁ = l₂ :=
  List.eq_of_perm_of_sorted p h₁ h₂

theorem sortMsgsDesc_filter {l : List MsgRow} (hne : l.Pairwise msgNE)
    (p : MsgRow → Bool) :
    sortMsgsDesc (l.filter p) = (sortMsgsDesc l).filter p := by
  apply strict_sorted_unique
  · exact sortMsgsDesc_strict (hne.filter p)
  · exact (sortMsgsDesc_strict hne).filter p
  · exact (sortMsgsDesc_perm _).trans ((sortMsgsDesc_perm l).filter p).symm

theorem filter_split_conv {msgs : List MsgRow} {cid b now : Nat} :
    msgs.filter (fun r =>
        r.conversation_id == cid && decide (r.timestamp < (some b).getD now)) =
      (msgs.filter (inConv cid)).filter (beforeTs b) := by
  rw [List.filter_filter]
  exact List.filter_congr (fun x _ => by
    simp [inConv, beforeTs, Bool.and_comm])

theorem scan_eq_take_filter {msgs : List MsgRow} {cid L b now : Nat}
    (hne : (msgs.filter (inConv cid)).Pairwise msgNE) :
    MessageModel.get_conversation_messages msgs cid L (some b) now =
      ((sortMsgsDesc (msgs.filter (inConv cid))).filter (beforeTs b)).take L := by
  rw [MessageModel.get_conversation_messages, filter_split_conv,
    sortMsgsDesc_filter hne (beforeTs b)]

theorem pageMinTs_spec : ∀ (m : MsgRow) (p : List MsgRow),
    (∃ x ∈ m :: p, pageMinTs (m :: p) = x.timestamp) ∧
    (∀ x ∈ m :: p, pageMinTs (m :: p) ≤ x.timestamp) := by
  intro m p
  induction p generalizing m with
  | nil =>
    refine ⟨⟨m, List.mem_singleton_self m, rfl⟩, ?_⟩
    intro x hx
    rw [List.mem_singleton] at hx
    subst hx
    exact le_refl _
  | cons q ps ih =>
    obtain ⟨⟨y, hy, hyeq⟩, hub⟩ := ih q
    have hmin : pageMinTs (m :: q :: ps) = min m.timestamp (pageMinTs (q :: ps)) := by
      simp [pageMinTs]
    constructor
    · rcases le_total m.timestamp (pageMinTs (q :: ps)) with h | h
      · exact ⟨m, List.mem_cons_self m _, by rw [hmin, min_eq_left h]⟩
      · exact ⟨y, List.mem_cons_of_mem m hy, by rw [hmin, min_eq_right h, hyeq]⟩
    · intro x hx
      rcases List.mem_cons.mp hx with h | h
      · subst h
        rw [hmin]
        exact min_le_left _ _
      · rw [hmin]
        exact le_trans (min_le_right _ _) (hub x h)

theorem filter_before_pageMin_eq_drop {r : List MsgRow} {L : Nat} (hL : 0 < L)
    (hne : r ≠ []) (hs : r.Pairwise msgGT) :
    r.filter (beforeTs (pageMinTs (r.take L))) = r.drop L := by
  have htne : r.take L ≠ [] := by
    intro h
    rcases List.take_eq_nil_iff.mp h with h0 | h0
    · omega
    · exact hne h0
  obtain ⟨m, p, htake⟩ := List.exists_cons_of_ne_nil htne
  have hspec := pageMinTs_spec m p
  rw [← htake] at hspec
  obtain ⟨⟨x, hxmem, hxeq⟩, hub⟩ := hspec
  have hsplit : r.take L ++ r.drop L = r := List.take_append_drop L r
  have hpw : ∀ y ∈ r.take L, ∀ z ∈ r.drop L, msgGT y z := by
    have h2 : (r.take L ++ r.drop L).Pairwise msgGT := by
      rw [hsplit]; exact hs
    exact fun y hy z hz => (List.pairwise_append.mp h2).2.2 y hy z hz
  have hdrop : ∀ z ∈ r.drop L, z.timestamp < pageMinTs (r.take L) := by
    intro z hz
    rw [hxeq]
    exact hpw x hxmem z hz
  have htf : (r.take L).filter (beforeTs (pageMinTs (r.take L))) = [] := by
    apply List.filter_eq_nil_iff.mpr
    intro y hy
    simp only [beforeTs, decide_eq_true_eq, Bool.not_eq_true]
    simp only [decide_eq_false_iff_not, not_lt]
    exact hub y hy
  have hdf : (r.drop L).filter (beforeTs (pageMinTs (r.take L))) = r.drop L := by
    apply List.filter_eq_self.mpr
    intro z hz
    simp only [beforeTs, decide_eq_true_eq]
    exact hdrop z hz
  calc r.filter (beforeTs (pageMinTs (r.take L)))
      = (r.take L ++ r.drop L).filter (beforeTs (pageMinTs (r.take L))) := by rw [hsplit]
    _ = (r.take L).filter (beforeTs (pageMinTs (r.take L))) ++
        (r.drop L).filter (beforeTs (pageMinTs (r.take L))) := List.filter_append _ _
    _ = [] ++ r.drop L := by rw [htf, hdf]
    _ = r.drop L := List.nil_append _

theorem chainPages_invariant (msgs : List MsgRow) (cid L : Nat) (hL : 0 < L)
    (hne : (msgs.filter (inConv cid)).Pairwise msgNE) :
    ∀ (fuel cursor : Nat),
      ((sortMsgsDesc (msgs.filter (inConv cid))).filter (beforeTs cursor)).length ≤ fuel →
      (chainPages msgs cid L fuel cursor).flatten =
        (sortMsgsDesc (msgs.filter (inConv cid))).filter (beforeTs cursor) ∧
      (chainPages msgs cid L fuel cursor).length =
        (((sortMsgsDesc (msgs.filter (inConv cid))).filter (beforeTs cursor)).length + L - 1) / L ∧
      (∀ p ∈ chainPages msgs cid L fuel cursor, p ≠ [] ∧ p.length ≤ L) ∧
      ((sortMsgsDesc (msgs.filter (inConv cid))).filter (beforeTs cursor) ≠ [] →
        lastPageLen (chainPages msgs cid L fuel cursor) =
          (((sortMsgsDesc (msgs.filter (inConv cid))).filter (beforeTs cursor)).length - 1) % L + 1) := by
  intro fuel
  induction fuel with
  | zero =>
    intro cursor hlen
    have h0 : (sortMsgsDesc (msgs.filter (inConv cid))).filter (beforeTs cursor) = [] :=
      List.length_eq_zero.mp (Nat.le_zero.mp hlen)
    refine ⟨?_, ?_, ?_, ?_⟩
    · rw [h0]; rfl
    · rw [h0]
      simp only [chainPages, List.length_nil]
      exact (Nat.div_eq_of_lt (by omega)).symm
    · intro p hp
      simp only [chainPages, List.not_mem_nil] at hp
    · intro hne2
      exact absurd h0 hne2
  | succ fuel ih =>
    intro cursor hlen
    set s := sortMsgsDesc (msgs.filter (inConv cid)) with hsdef
    set rm := s.filter (beforeTs cursor) with hrmdef
    have hscan : MessageModel.get_conversation_messages msgs cid L (some cursor) cursor =
        rm.take L := scan_eq_take_filter hne
    have hchain0 : chainPages msgs cid L (fuel + 1) cursor =
        (if rm.take L = [] then []
         else rm.take L :: chainPages msgs cid L fuel (pageMinTs (rm.take L))) := by
      simp only [chainPages, hscan]
    by_cases hrm : rm = []
    · have htk : rm.take L = [] := by rw [hrm, List.take_nil]
      rw [htk, if_pos rfl] at hchain0
      refine ⟨?_, ?_, ?_, ?_⟩
      · rw [hchain0, hrm]; rfl
      · rw [hchain0, hrm]
        simp only [List.length_nil]
        exact (Nat.div_eq_of_lt (by omega)).symm
      · intro p hp
        rw [hchain0] at hp
        exact absurd hp (List.not_mem_nil p)
      · intro hne2
        exact absurd hrm hne2
    · have htk : rm.take L ≠ [] := by
        intro h
        rcases List.take_eq_nil_iff.mp h with h0 | h0
        · omega
        · exact hrm h0
      rw [if_neg htk] at hchain0
      set nc := pageMinTs (rm.take L) with hncdef
      have hstrict_s : s.Pairwise msgGT := sortMsgsDesc_strict hne
      have hstrict_rm : rm.Pairwise msgGT := hstrict_s.filter _
      have hnc_lt : nc < cursor := by
        obtain ⟨m, p, htake⟩ := List.exists_cons_of_ne_nil htk
        have hspec := pageMinTs_spec m p
        rw [← htake] at hspec
        obtain ⟨⟨x, hxmem, hxeq⟩, -⟩ := hspec
        have hxrm : x ∈ rm := List.take_subset _ _ hxmem
        have hxf := List.mem_filter.mp (hrmdef ▸ hxrm)
        have hxlt : x.timestamp < cursor := by
          have := hxf.2
          simp only [beforeTs, decide_eq_true_eq] at this
          exact this
        rw [hncdef, hxeq]
        exact hxlt
      have h1 : s.filter (beforeTs nc) = rm.filter (beforeTs nc) := by
        rw [hrmdef, List.filter_filter]
        exact List.filter_congr (fun a _ => by
          by_cases h : a.timestamp < nc
          · have h2 : a.timestamp < cursor := lt_trans h hnc_lt
            simp [beforeTs, h, h2]
          · simp [beforeTs, h])
      have hstep : s.filter (beforeTs nc) = rm.drop L :=
        h1.trans (filter_before_pageMin_eq_drop hL hrm hstrict_rm)
      have hpos : 0 < rm.length := List.length_pos.mpr hrm
      have hlen2 : (s.filter (beforeTs nc)).length ≤ fuel := by
        rw [hstep, List.length_drop]
        omega
      obtain ⟨ihj, ihl, ihp, ihlast⟩ := ih nc hlen2
      refine ⟨?_, ?_, ?_, ?_⟩
      · rw [hchain0, List.flatten_cons, ihj, hstep, List.take_append_drop]
      · rw [hchain0, List.length_cons, ihl, hstep, List.length_drop]
        by_cases hcase : rm.length ≤ L
        · have e1 : rm.length - L = 0 := by omega
          have e2 : (0 : Nat) + L - 1 = L - 1 := by omega
          have e3 : rm.length + L - 1 = (rm.length - 1) + L := by omega
          rw [e1, e2, Nat.div_eq_of_lt (by omega), e3, Nat.add_div_right _ hL,
            Nat.div_eq_of_lt (by omega)]
        · have e1 : rm.length - L + L - 1 = (rm.length - L - 1) + L := by omega
          have e3 : rm.length + L - 1 = (rm.length - 1) + L := by omega
          have e4 : rm.length - 1 = (rm.length - L - 1) + L := by omega
          rw [e1, e3, Nat.add_div_right _ hL, Nat.add_div_right _ hL, e4,
            Nat.add_div_right _ hL]
      · intro p hp
        rw [hchain0] at hp
        rcases List.mem_cons.mp hp with h | h
        · subst h
          refine ⟨htk, ?_⟩
          rw [List.length_take]
          exact min_le_left _ _
        · exact ihp p h
      · intro _
        rw [hchain0]
        cases hrest : chainPages msgs cid L fuel nc with
        | nil =>
          have hdropnil : rm.drop L = [] := by
            rw [← hstep, ← ihj, hrest]
            rfl
          have hlen3 : rm.length ≤ L := by
            have := congrArg List.length hdropnil
            rw [List.length_drop] at this
            simp only [List.length_nil] at this
            omega
          show lastPageLen [rm.take L] = _
          simp only [lastPageLen]
          rw [List.length_take]
          have e : min L rm.length = rm.length := by omega
          rw [e, Nat.mod_eq_of_lt (by omega)]
          omega
        | cons r0 rest0 =>
          have hr0 : r0 ≠ [] := by
            refine (ihp r0 ?_).1
            rw [hrest]
            exact List.mem_cons_self _ _
          have hdropne : s.filter (beforeTs nc) ≠ [] := by
            intro h
            rw [hrest, h, List.flatten_cons, List.append_eq_nil] at ihj
            exact hr0 ihj.1
          have hlast2 := ihlast hdropne
          rw [hrest, hstep, List.length_drop] at hlast2
          have hgt : L < rm.length := by
            have hd : rm.drop L ≠ [] := hstep ▸ hdropne
            have := List.length_pos.mpr hd
            rw [List.length_drop] at this
            omega
          show lastPageLen (rm.take L :: r0 :: rest0) = _
          have hcc : lastPageLen (rm.take L :: r0 :: rest0) = lastPageLen (r0 :: rest0) := by
            simp only [lastPageLen]
          rw [hcc, hlast2]
          have e : rm.length - 1 = (rm.length - L - 1) + L := by omega
          rw [e, Nat.add_mod_right]

/-- C2 (amended): for a conversation holding N messages with pairwise
distinct timestamps, all below the initial scan time, and a page size L with
0 < L < N, chaining the scan from no cursor and passing each page's minimum
timestamp as the next exclusive cursor yields every message exactly once
across ceil(N/L) pages, each page nonempty with at most L items; the final
page holds ((N - 1) mod L) + 1 items, which is fewer than L exactly when L
does not divide N and equal to L when it does. -/
theorem pagination_chain_complete (msgs : List MsgRow) (cid L N now : Nat)
    (hne : (msgs.filter (inConv cid)).Pairwise msgNE)
    (hlt : ∀ r ∈ msgs.filter (inConv cid), r.timestamp < now)
    (hN : (msgs.filter (inConv cid)).length = N)
    (hL : 0 < L) (hLN : L < N) :
    List.Perm (chainPages msgs cid L N now).flatten (msgs.filter (inConv cid)) ∧
    (chainPages msgs cid L N now).length = (N + L - 1) / L ∧
    (∀ p ∈ chainPages msgs cid L N now, p ≠ [] ∧ p.length ≤ L) ∧
    lastPageLen (chainPages msgs cid L N now) = (N - 1) % L + 1 := by
  have hfull : (sortMsgsDesc (msgs.filter (inConv cid))).filter (beforeTs now) =
      sortMsgsDesc (msgs.filter (inConv cid)) := by
    apply List.filter_eq_self.mpr
    intro a ha
    have hmem : a ∈ msgs.filter (inConv cid) := (sortMsgsDesc_perm _).subset ha
    simp only [beforeTs, decide_eq_true_eq]
    exact hlt a hmem
  have hslen : (sortMsgsDesc (msgs.filter (inConv cid))).length = N := by
    rw [(sortMsgsDesc_perm _).length_eq, hN]
  obtain ⟨hj, hl, hp, hlast⟩ := chainPages_invariant msgs cid L hL hne N now
    (by rw [hfull, hslen])
  refine ⟨?_, ?_, hp, ?_⟩
  · rw [hj, hfull]
    exact sortMsgsDesc_perm _
  · rw [hl, hfull, hslen]
  · have hsne : sortMsgsDesc (msgs.filter (inConv cid)) ≠ [] := by
      intro h
      rw [h] at hslen
      simp only [List.length_nil] at hslen
      omega
    have hfin := hlast (by rw [hfull]; exact hsne)
    rw [hfull, hslen] at hfin
    exact hfin

/-- C2 (counterexample): with N = 4 messages with distinct timestamps and
page size L = 2 the hypotheses of the claim hold, the chained scan produces
ceil(N/L) = 2 pages, and the final page holds exactly L = 2 items, not fewer
than L as the claim states. -/
theorem pagination_final_page_not_small :
    ((0 : Nat) < 2 ∧ (2 : Nat) < 4) ∧
    (chainPages msgsFour 1 2 4 100).map List.length = [2, 2] ∧
    ¬ lastPageLen (chainPages msgsFour 1 2 4 100) < 2 := by decide

/-- C2 (witness): the amended statement instantiated on three messages of
conversation 1 with page size 2 and scan start 100. -/
theorem pagination_chain_complete_witness :
    (List.Pairwise msgNE (msgsThree.filter (inConv 1)) ∧
     (∀ r ∈ msgsThree.filter (inConv 1), r.timestamp < 100) ∧
     (msgsThree.filter (inConv 1)).length = 3 ∧ (0 : Nat) < 2 ∧ (2 : Nat) < 3) ∧
    (List.Perm (chainPages msgsThree 1 2 3 100).flatten (msgsThree.filter (inConv 1)) ∧
     (chainPages msgsThree 1 2 3 100).length = (3 + 2 - 1) / 2 ∧
     (∀ p ∈ chainPages msgsThree 1 2 3 100, p ≠ [] ∧ p.length ≤ 2) ∧
     lastPageLen (chainPages msgsThree 1 2 3 100) = (3 - 1) % 2 + 1) :=
  ⟨⟨by decide, by decide, by decide, by decide, by decide⟩,
   pagination_chain_complete msgsThree 1 2 3 100 (by decide) (by decide) (by decide)
     (by decide) (by decide)⟩

/-- C8 (code side): looking up a conversation id that is absent from storage
is reported as HTTP 500 with a generic internal-error prefix, not as a
distinct not-found error: the HTTPException(404) raised inside the try block
is caught by the except Exception clause and rewrapped as 500. -/
theorem missing_conversation_surfaced_as_500 :
    ConversationController.get_conversation [] 5 =
      .error ⟨500, "An error occurred while retrieving the conversation: 404: Conversation not found"⟩ ∧
    (500 : Nat) ≠ 404 := by
  exact ⟨rfl, by decide⟩

end Messenger
